import Mathlib

/-!
Shallow embedding of the crewai-mcp repository: a calculator tool server
(src/mcp_calculator_server.py) exposing four arithmetic tools, and a client
script (src/crew.py) that connects to it, discovers the tools and runs a
fixed task sequence.

Modelling conventions:
* Python `int` is arbitrary precision, embedded as `Int`.
* Python `float` arguments of `divide_numbers` are embedded as exact
  rationals (`Rat`); the divisions exercised by the repository (e.g.
  100 / 4) are exact in IEEE double as well.
* The process-wide logger is embedded by explicit state passing: each tool
  takes the log so far and returns the result paired with the new log.
* A raised Python exception is embedded as `Except.error`.
-/

/-- Log records emitted by the server's tools. Each call logs an entry
record carrying the tool name and arguments, and a completion record
carrying the tool name and result (mirroring the `logger.info` lines of
src/mcp_calculator_server.py). -/
inductive LogEvent where
  | calledInt (tool : String) (a b : Int)
  | completedInt (tool : String) (result : Int)
  | calledFloat (tool : String) (a b : Rat)
  | completedFloat (tool : String) (result : Rat)
  deriving DecidableEq, Repr

/-- Embedding of `add_numbers` (src/mcp_calculator_server.py lines 27-42):
logs entry, computes `a + b`, logs completion, returns the sum. -/
def add_numbers (a b : Int) (log : List LogEvent) : Int × List LogEvent :=
  let log1 := log ++ [LogEvent.calledInt "add_numbers" a b]
  let result := a + b
  let log2 := log1 ++ [LogEvent.completedInt "add_numbers" result]
  (result, log2)

/-- Embedding of `subtract_numbers` (src/mcp_calculator_server.py lines
45-60): logs entry, computes `a - b`, logs completion, returns the
difference. -/
def subtract_numbers (a b : Int) (log : List LogEvent) : Int × List LogEvent :=
  let log1 := log ++ [LogEvent.calledInt "subtract_numbers" a b]
  let result := a - b
  let log2 := log1 ++ [LogEvent.completedInt "subtract_numbers" result]
  (result, log2)

/-- Embedding of `multiply_numbers` (src/mcp_calculator_server.py lines
63-78): logs entry, computes `a * b`, logs completion, returns the
product. -/
def multiply_numbers (a b : Int) (log : List LogEvent) : Int × List LogEvent :=
  let log1 := log ++ [LogEvent.calledInt "multiply_numbers" a b]
  let result := a * b
  let log2 := log1 ++ [LogEvent.completedInt "multiply_numbers" result]
  (result, log2)

/-- Embedding of `divide_numbers` (src/mcp_calculator_server.py lines
81-101): if `b = 0` it raises `ValueError("Cannot divide by zero")`
before any logging; otherwise it logs entry, computes `a / b`, logs
completion, and returns the quotient. -/
def divide_numbers (a b : Rat) (log : List LogEvent) :
    Except String Rat × List LogEvent :=
  if b = 0 then
    (Except.error "Cannot divide by zero", log)
  else
    let log1 := log ++ [LogEvent.calledFloat "divide_numbers" a b]
    let result := a / b
    let log2 := log1 ++ [LogEvent.completedFloat "divide_numbers" result]
    (Except.ok result, log2)

/-- Declared numeric types in the tool schemas. -/
inductive NumType where
  | int
  | float
  deriving DecidableEq, Repr

/-- Schema of one registered tool: its name, ordered parameter list and
return type, as declared in the `@mcp.tool()` function signatures. -/
structure ToolSpec where
  name : String
  params : List (String × NumType)
  ret : NumType
  deriving DecidableEq, Repr

/-- Tool catalog served by discovery: the four `@mcp.tool()` registrations
of src/mcp_calculator_server.py, with their declared signatures. -/
def toolCatalog : List ToolSpec :=
  [ ToolSpec.mk "add_numbers" [("a", NumType.int), ("b", NumType.int)] NumType.int,
    ToolSpec.mk "subtract_numbers" [("a", NumType.int), ("b", NumType.int)] NumType.int,
    ToolSpec.mk "multiply_numbers" [("a", NumType.int), ("b", NumType.int)] NumType.int,
    ToolSpec.mk "divide_numbers" [("a", NumType.float), ("b", NumType.float)] NumType.float ]

/-- Observable outcome of one run of the client script src/crew.py:
whether the discovered tool list was printed, whether the catch-all
`except` branch reported a connection error, whether the skip message was
printed, and whether the crew kickoff (the task sequence issuing tool
calls) was started. -/
structure ClientRun where
  printedToolList : Bool
  reportedConnectionError : Bool
  printedSkipMessage : Bool
  kickedOff : Bool
  deriving DecidableEq, Repr

/-- Embedding of the top level of src/crew.py. The adapter either fails
(the `with MCPServerAdapter(...)` raises, caught by the `except` clause
which prints the connection error) or yields the discovered tool list, in
which case the names are printed and `if tools:` decides between kicking
off the crew and printing the skip message. The function is total: every
adapter outcome ends in a normal return (a clean exit). -/
def runClient (adapter : Except String (List ToolSpec)) : ClientRun :=
  match adapter with
  | Except.error _ => ClientRun.mk false true false false
  | Except.ok tools =>
      if tools.isEmpty then ClientRun.mk true false true false
      else ClientRun.mk true false false true

/-- C1: for every pair of integer inputs a and b, the add operation
returns a + b, the subtract operation returns a - b, and the multiply
operation returns a * b. -/
theorem c1_add_sub_mul_correct (a b : Int) (log : List LogEvent) :
    (add_numbers a b log).1 = a + b ∧
    (subtract_numbers a b log).1 = a - b ∧
    (multiply_numbers a b log).1 = a * b :=
  ⟨rfl, rfl, rfl⟩

/-- C2: for every numeric a and nonzero numeric b, divide returns the
quotient a / b (floats modelled as exact rationals). -/
theorem c2_divide_correct (a b : Rat) (log : List LogEvent) (hb : b ≠ 0) :
    (divide_numbers a b log).1 = Except.ok (a / b) := by
  simp [divide_numbers, hb]

/-- Witness for C2 at the spec scenario: divide(100, 4) = 25. -/
theorem c2_divide_correct_witness :
    (4 : Rat) ≠ 0 ∧ (divide_numbers 100 4 []).1 = Except.ok 25 := by
  refine ⟨by norm_num, ?_⟩
  rw [c2_divide_correct 100 4 [] (by norm_num)]
  norm_num

/-- C3: for every numeric a, divide with second argument 0 returns the
explicit division-by-zero failure rather than a numeric result. -/
theorem c3_divide_by_zero_fails (a : Rat) (log : List LogEvent) :
    (divide_numbers a 0 log).1 = Except.error "Cannot divide by zero" := by
  simp [divide_numbers]

/-- C4: tool discovery returns exactly the four named arithmetic
operations, and each discovered tool takes exactly two (numeric)
arguments. -/
theorem c4_tool_discovery :
    toolCatalog.map ToolSpec.name =
      ["add_numbers", "subtract_numbers", "multiply_numbers", "divide_numbers"] ∧
    toolCatalog.length = 4 ∧
    ∀ t ∈ toolCatalog, t.params.length = 2 := by
  refine ⟨rfl, rfl, ?_⟩
  decide

/-- C5: when the adapter fails (server unreachable or discovery fails),
the client reports a connection error, never starts the task sequence,
prints no tool list, and still returns normally (clean exit, no crash). -/
theorem c5_connection_failure (e : String) :
    runClient (Except.error e) = ClientRun.mk false true false false := rfl

/-- C6 counterexample: a divide invocation with second argument 0 writes
no log record at all — starting from the empty log, the call fails and
the log is still empty, so no entry record was written for that
invocation. -/
theorem c6_counterexample :
    (divide_numbers 1 0 []).2 = [] ∧
    (divide_numbers 1 0 []).1 = Except.error "Cannot divide by zero" := by
  constructor <;> rfl

/-- C6 (amended): every invocation of add, subtract and multiply, and
every divide invocation with nonzero second argument, writes a log record
on entry and another on completion; a divide invocation with second
argument 0 fails before writing any log record. -/
theorem c6_logging_amended (a b : Int) (x y : Rat) (log : List LogEvent)
    (hy : y ≠ 0) :
    (add_numbers a b log).2 = log ++
      [LogEvent.calledInt "add_numbers" a b,
       LogEvent.completedInt "add_numbers" (a + b)] ∧
    (subtract_numbers a b log).2 = log ++
      [LogEvent.calledInt "subtract_numbers" a b,
       LogEvent.completedInt "subtract_numbers" (a - b)] ∧
    (multiply_numbers a b log).2 = log ++
      [LogEvent.calledInt "multiply_numbers" a b,
       LogEvent.completedInt "multiply_numbers" (a * b)] ∧
    (divide_numbers x y log).2 = log ++
      [LogEvent.calledFloat "divide_numbers" x y,
       LogEvent.completedFloat "divide_numbers" (x / y)] ∧
    (divide_numbers x 0 log).2 = log := by
  refine ⟨by simp [add_numbers], by simp [subtract_numbers],
    by simp [multiply_numbers], ?_, by simp [divide_numbers]⟩
  simp [divide_numbers, hy]

/-- Witness for the amended C6 at concrete inputs. -/
theorem c6_logging_amended_witness :
    (2 : Rat) ≠ 0 ∧
    (add_numbers 1 2 []).2 =
      [LogEvent.calledInt "add_numbers" 1 2,
       LogEvent.completedInt "add_numbers" 3] ∧
    (divide_numbers 1 2 []).2 =
      [LogEvent.calledFloat "divide_numbers" 1 2,
       LogEvent.completedFloat "divide_numbers" (1 / 2)] ∧
    (divide_numbers 1 0 []).2 = [] := by
  have h := c6_logging_amended 1 2 1 2 [] (by norm_num)
  exact ⟨by norm_num, by simpa using h.1, by simpa using h.2.2.2.1,
    by simpa using h.2.2.2.2⟩

/-- C7: every operation is pure and stateless — the result of a call
depends only on its arguments (never on the log accumulated by earlier
calls), and the only effect of a call is to append its own records to the
log, leaving everything already there intact. -/
theorem c7_pure_stateless (a b : Int) (x y : Rat) (log log' : List LogEvent) :
    (add_numbers a b log).1 = (add_numbers a b log').1 ∧
    (subtract_numbers a b log).1 = (subtract_numbers a b log').1 ∧
    (multiply_numbers a b log).1 = (multiply_numbers a b log').1 ∧
    (divide_numbers x y log).1 = (divide_numbers x y log').1 ∧
    (add_numbers a b log).2 = log ++ (add_numbers a b []).2 ∧
    (subtract_numbers a b log).2 = log ++ (subtract_numbers a b []).2 ∧
    (multiply_numbers a b log).2 = log ++ (multiply_numbers a b []).2 ∧
    (divide_numbers x y log).2 = log ++ (divide_numbers x y []).2 := by
  refine ⟨rfl, rfl, rfl, ?_, by simp [add_numbers],
    by simp [subtract_numbers], by simp [multiply_numbers], ?_⟩ <;>
    by_cases hy : y = 0 <;> simp [divide_numbers, hy]

/-- C8: a divide invocation with second argument 0 fails before any
logging — the error branch precedes the entry log, so the log after the
failed call is exactly the log before it. -/
theorem c8_divide_zero_atomic (a : Rat) (log : List LogEvent) :
    (divide_numbers a 0 log).2 = log ∧
    (divide_numbers a 0 log).1 = Except.error "Cannot divide by zero" := by
  constructor <;> simp [divide_numbers]

/-- C9: add, subtract and multiply are declared over integers (int
parameters, int result) and return the exact integer value with no
rounding; only divide is declared over floating-point values. -/
theorem c9_int_exact_float_divide :
    toolCatalog.map ToolSpec.ret =
      [NumType.int, NumType.int, NumType.int, NumType.float] ∧
    (∀ t ∈ toolCatalog.take 3, ∀ p ∈ t.params, p.2 = NumType.int) ∧
    toolCatalog[3]? = some (ToolSpec.mk "divide_numbers"
      [("a", NumType.float), ("b", NumType.float)] NumType.float) ∧
    ∀ a b : Int, (add_numbers a b []).1 = a + b ∧
      (subtract_numbers a b []).1 = a - b ∧
      (multiply_numbers a b []).1 = a * b := by
  refine ⟨rfl, by decide, rfl, fun a b => ⟨rfl, rfl, rfl⟩⟩

/-- C10: when the connection succeeds but the discovered tool list is
empty, the client prints the skip message instead of kicking off the
crew, reports no error, and exits cleanly. -/
theorem c10_empty_tools_skip :
    runClient (Except.ok []) = ClientRun.mk true false true false := rfl
